import Mathlib

/-!
Verification of the MyFox portable launcher (src/tools/portable_launcher.c).

The launcher's `wWinMain` is a linear sequence of Win32 calls:
`GetModuleFileNameW`, `PathRemoveFileSpecW`, `GetFileAttributesW` on two
candidate paths, two unchecked `CreateDirectoryW` calls, `StringCchPrintfW`
command-line construction, and one `CreateProcessW`.  We embed it as a pure
function `run` over an abstract environment `Env` describing the OS responses,
returning the process exit code together with the ordered trace of observable
OS calls (message boxes, directory creations, process creations).
-/

set_option maxHeartbeats 1000000

namespace PortableLauncher

/-- Windows `MAX_PATH` (260), the size of the `base` buffer. -/
def MAX_PATH : Nat := 260

/-- What `GetFileAttributesW` reports when it does not return
`INVALID_FILE_ATTRIBUTES`: the entry may be an ordinary file, a directory, or
any other kind of filesystem entry.  The C code only tests
`GetFileAttributesW(p) == INVALID_FILE_ATTRIBUTES`, i.e. `Option.isSome` here. -/
inductive FileAttr where
  | file
  | directory
  | other
deriving DecidableEq, Repr

/-- The operating environment of one launcher run: the module path reported by
`GetModuleFileNameW` (`none` models the API returning 0), the result of
`GetFileAttributesW` per path (`none` models `INVALID_FILE_ATTRIBUTES`), the
result of each `CreateDirectoryW` call (ignored by the code, as in the source,
where the `BOOL` return is discarded), the success of `CreateProcessW`, and the
`GetLastError` value used in the spawn-failure dialog. -/
structure Env where
  modulePath : Option String
  getFileAttributes : String → Option FileAttr
  createDirResult : String → Bool
  createProcessOk : String → String → String → Bool
  lastError : Nat

/-- One observable OS call made by the launcher, in program order. -/
inductive Event where
  | messageBox (text : String)
  | createDirectory (path : String)
  | createProcess (application commandLine workingDir : String) (ok : Bool)
deriving DecidableEq, Repr

/-- The outcome of a run: the `wWinMain` return value and the event trace. -/
structure RunResult where
  exitCode : Nat
  events : List Event
deriving DecidableEq, Repr

/-- List-level model of `PathRemoveFileSpecW`: drop the trailing
backslash-separated component together with its backslash.  (We only apply it
to full file paths such as `...\MyFox.exe` and `...\firefox.exe`, where the
Win32 API behaves exactly like this.) -/
def removeFileSpecAux (l : List Char) : List Char :=
  ((l.reverse.dropWhile (fun c => c != '\\')).drop 1).reverse

/-- String-level `PathRemoveFileSpecW`. -/
def removeFileSpec (s : String) : String :=
  String.mk (removeFileSpecAux s.data)

/-- First candidate: `base\App\Firefox64\firefox.exe` (line 39 of the source). -/
def ffExe64 (base : String) : String := base ++ "\\App\\Firefox64\\firefox.exe"

/-- Second candidate: `base\App\Firefox\firefox.exe` (line 43 of the source). -/
def ffExe32 (base : String) : String := base ++ "\\App\\Firefox\\firefox.exe"

/-- Data directory `base\Data` (line 54 of the source). -/
def dataDir (base : String) : String := base ++ "\\Data"

/-- Profile directory `base\Data\profile` (line 55 of the source). -/
def profileDir (base : String) : String := base ++ "\\Data\\profile"

/-- The command line built by `StringCchPrintfW` with format
`"%s" -profile "%s" -no-remote` (lines 60-61 of the source). -/
def buildCmdline (ff_exe prof : String) : String :=
  "\"" ++ ff_exe ++ "\" -profile \"" ++ prof ++ "\" -no-remote"

/-- The path-resolution error dialog text. -/
def pathErrMsg : String := "Failed to get executable path."

/-- The target-not-found error dialog text. -/
def notFoundMsg : String :=
  "Firefox not found.\n\nExpected at:\n  App\\Firefox64\\firefox.exe\n  App\\Firefox\\firefox.exe"

/-- The spawn-failure dialog text, carrying the `GetLastError` code. -/
def spawnErrMsg (code : Nat) : String :=
  "Failed to launch Firefox.\n\nError code: " ++ toString code

/-- Existence check `GetFileAttributesW(p) != INVALID_FILE_ATTRIBUTES`. -/
def existsAt (env : Env) (p : String) : Bool :=
  (env.getFileAttributes p).isSome

/-- The tail of the run once a target executable `ff_exe` has been selected:
build `data_dir` and `profile` (lines 54-55), call `CreateDirectoryW` on both
in that order discarding the results (lines 56-57), build the command line
(lines 60-61), derive the working directory from `ff_exe` (lines 64-65), and
call `CreateProcessW` (lines 71-72), returning 1 with an error dialog on spawn
failure (lines 73-78) and 0 otherwise (line 82). -/
def launchPhase (env : Env) (base ff_exe : String) : RunResult :=
  let data := dataDir base
  let prof := profileDir base
  let cmd := buildCmdline ff_exe prof
  let dir := removeFileSpec ff_exe
  if env.createProcessOk ff_exe cmd dir then
    { exitCode := 0
      events := [Event.createDirectory data, Event.createDirectory prof,
                 Event.createProcess ff_exe cmd dir true] }
  else
    { exitCode := 1
      events := [Event.createDirectory data, Event.createDirectory prof,
                 Event.createProcess ff_exe cmd dir false,
                 Event.messageBox (spawnErrMsg env.lastError)] }

/-- The whole of `wWinMain`: fail with a dialog and exit code 1 if
`GetModuleFileNameW` returned 0 or a length `>= MAX_PATH` (lines 30-36),
otherwise derive `base` by `PathRemoveFileSpecW` (line 37), probe the two
candidate paths in order with `GetFileAttributesW` (lines 39-51), fail with a
dialog and exit code 1 if neither exists, and otherwise continue with the
selected target. -/
def run (env : Env) : RunResult :=
  match env.modulePath with
  | none => { exitCode := 1, events := [Event.messageBox pathErrMsg] }
  | some path =>
    if path.length = 0 ∨ MAX_PATH ≤ path.length then
      { exitCode := 1, events := [Event.messageBox pathErrMsg] }
    else
      let base := removeFileSpec path
      if existsAt env (ffExe64 base) then
        launchPhase env base (ffExe64 base)
      else if existsAt env (ffExe32 base) then
        launchPhase env base (ffExe32 base)
      else
        { exitCode := 1, events := [Event.messageBox notFoundMsg] }

/-- All `CreateProcessW` calls recorded in a run, as
(application, commandLine, workingDir, succeeded). -/
def spawnCalls (r : RunResult) : List (String × String × String × Bool) :=
  r.events.filterMap fun e =>
    match e with
    | Event.createProcess a c d ok => some (a, c, d, ok)
    | _ => none

/-- The application path of the first `CreateProcessW` call, if any:
the resolved target executable. -/
def targetOf (r : RunResult) : Option String :=
  (spawnCalls r).head?.map (fun t => t.1)

/-- The command line of the first `CreateProcessW` call, if any. -/
def cmdlineOf (r : RunResult) : Option String :=
  (spawnCalls r).head?.map (fun t => t.2.1)

/-- An install under `C:\MyFox` with both candidate executables present. -/
def envBoth : Env :=
  { modulePath := some "C:\\MyFox\\MyFox.exe"
    getFileAttributes := fun p =>
      if p = "C:\\MyFox\\App\\Firefox64\\firefox.exe" then some FileAttr.file
      else if p = "C:\\MyFox\\App\\Firefox\\firefox.exe" then some FileAttr.file
      else none
    createDirResult := fun _ => true
    createProcessOk := fun _ _ _ => true
    lastError := 0 }

/-- An install with neither candidate present under `C:\MyFox`. -/
def envNone : Env :=
  { modulePath := some "C:\\MyFox\\MyFox.exe"
    getFileAttributes := fun _ => none
    createDirResult := fun _ => true
    createProcessOk := fun _ _ _ => true
    lastError := 0 }

/-- An install under `C:\MyFox` with a directory named `firefox.exe` at the
first candidate path and a real file at the second. -/
def envDir64 : Env :=
  { modulePath := some "C:\\MyFox\\MyFox.exe"
    getFileAttributes := fun p =>
      if p = "C:\\MyFox\\App\\Firefox64\\firefox.exe" then some FileAttr.directory
      else if p = "C:\\MyFox\\App\\Firefox\\firefox.exe" then some FileAttr.file
      else none
    createDirResult := fun _ => true
    createProcessOk := fun _ _ _ => true
    lastError := 0 }

/-! ### Helper lemmas about `removeFileSpec` and path strings -/

theorem dropWhile_length_le {α : Type} (p : α → Bool) (l : List α) :
    (l.dropWhile p).length ≤ l.length := by
  induction l with
  | nil => simp
  | cons a t ih =>
    rw [List.dropWhile_cons]
    split
    · exact Nat.le_succ_of_le ih
    · exact Nat.le_refl _

theorem dropWhile_bne_append (t r : List Char)
    (h : ∀ c ∈ t, (c != '\\') = true) :
    List.dropWhile (fun c => c != '\\') (t ++ '\\' :: r) = '\\' :: r := by
  induction t with
  | nil => simp [List.dropWhile_cons]
  | cons a t ih =>
    have ha := h a (List.mem_cons_self a t)
    rw [List.cons_append, List.dropWhile_cons, if_pos ha]
    exact ih (fun c hc => h c (List.mem_cons_of_mem a hc))

theorem removeFileSpecAux_append (l t : List Char)
    (h : ∀ c ∈ t, (c != '\\') = true) :
    removeFileSpecAux (l ++ '\\' :: t) = l := by
  unfold removeFileSpecAux
  rw [List.reverse_append, List.reverse_cons, List.append_assoc,
    List.singleton_append,
    dropWhile_bne_append t.reverse l.reverse
      (fun c hc => h c (List.mem_reverse.mp hc))]
  simp

theorem removeFileSpec_ffExe64 (base : String) :
    removeFileSpec (ffExe64 base) = base ++ "\\App\\Firefox64" := by
  apply String.ext
  show removeFileSpecAux (ffExe64 base).data = _
  rw [ffExe64, String.data_append, String.data_append]
  have h : ("\\App\\Firefox64\\firefox.exe" : String).data
      = ("\\App\\Firefox64" : String).data ++ '\\' :: ("firefox.exe" : String).data := by
    decide
  rw [h, ← List.append_assoc]
  exact removeFileSpecAux_append _ _ (by decide)

theorem removeFileSpec_ffExe32 (base : String) :
    removeFileSpec (ffExe32 base) = base ++ "\\App\\Firefox" := by
  apply String.ext
  show removeFileSpecAux (ffExe32 base).data = _
  rw [ffExe32, String.data_append, String.data_append]
  have h : ("\\App\\Firefox\\firefox.exe" : String).data
      = ("\\App\\Firefox" : String).data ++ '\\' :: ("firefox.exe" : String).data := by
    decide
  rw [h, ← List.append_assoc]
  exact removeFileSpecAux_append _ _ (by decide)

theorem removeFileSpec_length_le (s : String) :
    (removeFileSpec s).length ≤ s.length := by
  show (removeFileSpecAux s.data).length ≤ s.data.length
  unfold removeFileSpecAux
  rw [List.length_reverse, List.length_drop]
  have h := dropWhile_length_le (fun c => c != '\\') s.data.reverse
  rw [List.length_reverse] at h
  omega

theorem ffExe64_ne_ffExe32 (base : String) : ffExe64 base ≠ ffExe32 base := by
  intro h
  have hl := congrArg String.length h
  rw [ffExe64, ffExe32, String.length_append, String.length_append] at hl
  have h64 : ("\\App\\Firefox64\\firefox.exe" : String).length = 26 := by decide
  have h32 : ("\\App\\Firefox\\firefox.exe" : String).length = 24 := by decide
  omega

theorem dir64_ne_base (base : String) : base ++ "\\App\\Firefox64" ≠ base := by
  intro h
  have hl := congrArg String.length h
  rw [String.length_append] at hl
  have h14 : ("\\App\\Firefox64" : String).length = 14 := by decide
  omega

theorem dir32_ne_base (base : String) : base ++ "\\App\\Firefox" ≠ base := by
  intro h
  have hl := congrArg String.length h
  rw [String.length_append] at hl
  have h12 : ("\\App\\Firefox" : String).length = 12 := by decide
  omega

/-- Characterisation of every `CreateProcessW` call a run can make: the
application is one of the two candidates, the command line is built by the
`StringCchPrintfW` format from it and the profile directory, and the working
directory is the application's directory. -/
theorem run_spawn_char (env : Env) (path : String)
    (hm : env.modulePath = some path)
    (hlen : ¬(path.length = 0 ∨ MAX_PATH ≤ path.length)) :
    ∀ a c d ok, Event.createProcess a c d ok ∈ (run env).events →
      (a = ffExe64 (removeFileSpec path) ∨ a = ffExe32 (removeFileSpec path)) ∧
      c = buildCmdline a (profileDir (removeFileSpec path)) ∧
      d = removeFileSpec a := by
  intro a c d ok hmem
  simp only [run, hm] at hmem
  rw [if_neg hlen] at hmem
  by_cases h64 : existsAt env (ffExe64 (removeFileSpec path)) = true
  · rw [if_pos h64] at hmem
    simp only [launchPhase] at hmem
    split at hmem <;> simp_all
  · rw [if_neg h64] at hmem
    by_cases h32 : existsAt env (ffExe32 (removeFileSpec path)) = true
    · rw [if_pos h32] at hmem
      simp only [launchPhase] at hmem
      split at hmem <;> simp_all
    · rw [if_neg h32] at hmem
      simp at hmem

/-! ### Claim theorems -/

/-- C5: if `GetModuleFileNameW` fails (returns 0, modelled by `none` or a
zero-length path) or the path does not fit the buffer (`length >= MAX_PATH`),
the run shows the path error dialog and exits 1, with no further action: its
whole event trace is that single dialog. -/
theorem path_resolution_failure (env : Env)
    (h : env.modulePath = none ∨
      ∃ p, env.modulePath = some p ∧ (p.length = 0 ∨ MAX_PATH ≤ p.length)) :
    (run env).exitCode = 1 ∧ (run env).events = [Event.messageBox pathErrMsg] := by
  rcases h with h | ⟨p, hp, hl⟩
  · simp [run, h]
  · simp only [run, hp]
    rw [if_pos hl]
    simp

/-- C5 witness at a concrete failing environment. -/
theorem path_resolution_failure_witness :
    (run (Env.mk none (fun _ => none) (fun _ => true) (fun _ _ _ => true) 0)).exitCode = 1 ∧
    (run (Env.mk none (fun _ => none) (fun _ => true) (fun _ _ _ => true) 0)).events
      = [Event.messageBox pathErrMsg] :=
  path_resolution_failure _ (Or.inl rfl)

/-- C2: when neither candidate executable exists, the run exits 1 and its
whole event trace is the not-found dialog: in particular no
`CreateDirectoryW` and no `CreateProcessW` call is made. -/
theorem neither_candidate_exit1 (env : Env) (path : String)
    (hm : env.modulePath = some path)
    (hlen : ¬(path.length = 0 ∨ MAX_PATH ≤ path.length))
    (h64 : existsAt env (ffExe64 (removeFileSpec path)) = false)
    (h32 : existsAt env (ffExe32 (removeFileSpec path)) = false) :
    (run env).exitCode = 1 ∧ (run env).events = [Event.messageBox notFoundMsg] := by
  simp only [run, hm]
  rw [if_neg hlen]
  rw [if_neg (by simp [h64]), if_neg (by simp [h32])]
  simp

/-- C2 witness at a concrete empty install layout. -/
theorem neither_candidate_exit1_witness :
    (run envNone).exitCode = 1 ∧ (run envNone).events = [Event.messageBox notFoundMsg] :=
  neither_candidate_exit1 envNone "C:\\MyFox\\MyFox.exe" rfl (by decide) rfl rfl

/-- C7: the exit code is always 0 or 1, and it is 0 exactly when the trace
contains a successful `CreateProcessW` call; every failure path exits 1. -/
theorem exit_code_zero_iff_spawn_success (env : Env) :
    ((run env).exitCode = 0 ∨ (run env).exitCode = 1) ∧
    ((run env).exitCode = 0 ↔
      ∃ a c d, Event.createProcess a c d true ∈ (run env).events) := by
  cases hm : env.modulePath with
  | none => simp [run, hm]
  | some path =>
    by_cases hlen : path.length = 0 ∨ MAX_PATH ≤ path.length
    · simp only [run, hm]
      rw [if_pos hlen]
      simp
    · simp only [run, hm]
      rw [if_neg hlen]
      by_cases h64 : existsAt env (ffExe64 (removeFileSpec path)) = true
      · rw [if_pos h64]
        simp only [launchPhase]
        split <;> simp
      · rw [if_neg h64]
        by_cases h32 : existsAt env (ffExe32 (removeFileSpec path)) = true
        · rw [if_pos h32]
          simp only [launchPhase]
          split <;> simp
        · rw [if_neg h32]
          simp

/-- Shared helper: whenever `GetFileAttributesW` succeeds on the first
candidate, the run spawns that candidate, and the run result does not depend
on the attributes of any path other than the second candidate (in particular
the second candidate is never consulted). -/
theorem run_first_candidate (env : Env) (path : String)
    (hm : env.modulePath = some path)
    (hlen : ¬(path.length = 0 ∨ MAX_PATH ≤ path.length))
    (hex : existsAt env (ffExe64 (removeFileSpec path)) = true) :
    targetOf (run env) = some (ffExe64 (removeFileSpec path)) ∧
    ∀ g : String → Option FileAttr,
      (∀ q, q ≠ ffExe32 (removeFileSpec path) → g q = env.getFileAttributes q) →
      run { env with getFileAttributes := g } = run env := by
  constructor
  · simp only [run, hm]
    rw [if_neg hlen, if_pos hex]
    simp only [launchPhase, targetOf, spawnCalls]
    split <;> simp
  · intro g hg
    have hg64 : g (ffExe64 (removeFileSpec path))
        = env.getFileAttributes (ffExe64 (removeFileSpec path)) :=
      hg _ (ffExe64_ne_ffExe32 (removeFileSpec path))
    have hex' : (env.getFileAttributes (ffExe64 (removeFileSpec path))).isSome = true := hex
    simp only [run, hm, existsAt]
    rw [if_neg hlen, if_neg hlen, hg64, if_pos hex', if_pos hex']
    rfl

/-- C1: when `App\Firefox64\firefox.exe` exists, the run selects it as the
spawned target, and the result is unchanged under any reinterpretation of the
attributes of the second candidate path: the second candidate is checked only
when the first does not exist. -/
theorem firefox64_priority (env : Env) (path : String)
    (hm : env.modulePath = some path)
    (hlen : ¬(path.length = 0 ∨ MAX_PATH ≤ path.length))
    (hex : existsAt env (ffExe64 (removeFileSpec path)) = true) :
    targetOf (run env) = some (ffExe64 (removeFileSpec path)) ∧
    ∀ g : String → Option FileAttr,
      (∀ q, q ≠ ffExe32 (removeFileSpec path) → g q = env.getFileAttributes q) →
      run { env with getFileAttributes := g } = run env :=
  run_first_candidate env path hm hlen hex

/-- C1 witness: with both candidates present the 64-bit one is selected, and
replacing the attribute function by itself (which trivially agrees away from
the second candidate) leaves the run unchanged. -/
theorem firefox64_priority_witness :
    targetOf (run envBoth) = some (ffExe64 (removeFileSpec "C:\\MyFox\\MyFox.exe")) ∧
    run { envBoth with getFileAttributes := envBoth.getFileAttributes } = run envBoth :=
  ⟨(firefox64_priority envBoth "C:\\MyFox\\MyFox.exe" rfl (by decide) (by decide)).1,
   (firefox64_priority envBoth "C:\\MyFox\\MyFox.exe" rfl (by decide) (by decide)).2
     envBoth.getFileAttributes (fun _ _ => rfl)⟩

/-- C9: the candidate check is attribute-existence only, not a regular-file
check: a directory at `App\Firefox64\firefox.exe` is selected as the target,
and the second candidate is never consulted. -/
theorem directory_counts_as_match (env : Env) (path : String)
    (hm : env.modulePath = some path)
    (hlen : ¬(path.length = 0 ∨ MAX_PATH ≤ path.length))
    (hdir : env.getFileAttributes (ffExe64 (removeFileSpec path))
      = some FileAttr.directory) :
    targetOf (run env) = some (ffExe64 (removeFileSpec path)) ∧
    ∀ g : String → Option FileAttr,
      (∀ q, q ≠ ffExe32 (removeFileSpec path) → g q = env.getFileAttributes q) →
      run { env with getFileAttributes := g } = run env :=
  run_first_candidate env path hm hlen (by simp [existsAt, hdir])

/-- C9 witness: the directory at the first candidate path is selected. -/
theorem directory_counts_as_match_witness :
    targetOf (run envDir64) = some (ffExe64 (removeFileSpec "C:\\MyFox\\MyFox.exe")) ∧
    run { envDir64 with getFileAttributes := envDir64.getFileAttributes } = run envDir64 :=
  ⟨(directory_counts_as_match envDir64 "C:\\MyFox\\MyFox.exe" rfl (by decide) (by decide)).1,
   (directory_counts_as_match envDir64 "C:\\MyFox\\MyFox.exe" rfl (by decide) (by decide)).2
     envDir64.getFileAttributes (fun _ _ => rfl)⟩

/-- C3: every `CreateProcessW` call of a run receives exactly the command line
`"<target>" -profile "<InstallRoot>\Data\profile" -no-remote`, where the
target is the call's application path and `InstallRoot` is the launcher's own
directory. -/
theorem cmdline_exact (env : Env) (path : String)
    (hm : env.modulePath = some path)
    (hlen : ¬(path.length = 0 ∨ MAX_PATH ≤ path.length)) :
    ∀ a c d ok, Event.createProcess a c d ok ∈ (run env).events →
      c = "\"" ++ a ++ "\" -profile \""
        ++ (removeFileSpec path ++ "\\Data\\profile") ++ "\" -no-remote" := by
  intro a c d ok hmem
  have h := run_spawn_char env path hm hlen a c d ok hmem
  rw [h.2.1]
  rfl

/-- C3 witness: the concrete command line of the spawn in `envBoth`. -/
theorem cmdline_exact_witness :
    "\"C:\\MyFox\\App\\Firefox64\\firefox.exe\" -profile \"C:\\MyFox\\Data\\profile\" -no-remote"
      = "\"" ++ "C:\\MyFox\\App\\Firefox64\\firefox.exe" ++ "\" -profile \""
        ++ (removeFileSpec "C:\\MyFox\\MyFox.exe" ++ "\\Data\\profile") ++ "\" -no-remote" :=
  cmdline_exact envBoth "C:\\MyFox\\MyFox.exe" rfl (by decide)
    "C:\\MyFox\\App\\Firefox64\\firefox.exe"
    "\"C:\\MyFox\\App\\Firefox64\\firefox.exe\" -profile \"C:\\MyFox\\Data\\profile\" -no-remote"
    "C:\\MyFox\\App\\Firefox64" true (by decide)

/-- C4: the working directory of every `CreateProcessW` call is the directory
component of the target executable path, and it differs from `InstallRoot`
(the launcher's own directory). -/
theorem working_dir_is_target_dir (env : Env) (path : String)
    (hm : env.modulePath = some path)
    (hlen : ¬(path.length = 0 ∨ MAX_PATH ≤ path.length)) :
    ∀ a c d ok, Event.createProcess a c d ok ∈ (run env).events →
      d = removeFileSpec a ∧ d ≠ removeFileSpec path := by
  intro a c d ok hmem
  have h := run_spawn_char env path hm hlen a c d ok hmem
  refine ⟨h.2.2, ?_⟩
  rcases h.1 with h1 | h1
  · rw [h.2.2, h1, removeFileSpec_ffExe64]
    exact dir64_ne_base _
  · rw [h.2.2, h1, removeFileSpec_ffExe32]
    exact dir32_ne_base _

/-- C4 witness: in `envBoth` the child working directory is
`C:\MyFox\App\Firefox64`, the target's directory, not `C:\MyFox`. -/
theorem working_dir_is_target_dir_witness :
    "C:\\MyFox\\App\\Firefox64"
        = removeFileSpec "C:\\MyFox\\App\\Firefox64\\firefox.exe" ∧
    "C:\\MyFox\\App\\Firefox64" ≠ removeFileSpec "C:\\MyFox\\MyFox.exe" :=
  working_dir_is_target_dir envBoth "C:\\MyFox\\MyFox.exe" rfl (by decide)
    "C:\\MyFox\\App\\Firefox64\\firefox.exe"
    "\"C:\\MyFox\\App\\Firefox64\\firefox.exe\" -profile \"C:\\MyFox\\Data\\profile\" -no-remote"
    "C:\\MyFox\\App\\Firefox64" true (by decide)

/-- C6: once a target is selected, the first two events are the creation of
`InstallRoot\Data` and then `InstallRoot\Data\profile` (parent first), and the
run's outcome is completely independent of the `CreateDirectoryW` results
(their return values are discarded). -/
theorem dir_creation_parent_first_unchecked (env : Env) (path : String)
    (hm : env.modulePath = some path)
    (hlen : ¬(path.length = 0 ∨ MAX_PATH ≤ path.length))
    (hfound : existsAt env (ffExe64 (removeFileSpec path)) = true ∨
              existsAt env (ffExe32 (removeFileSpec path)) = true) :
    (run env).events.take 2 =
      [Event.createDirectory (dataDir (removeFileSpec path)),
       Event.createDirectory (profileDir (removeFileSpec path))] ∧
    ∀ f, run { env with createDirResult := f } = run env := by
  refine ⟨?_, fun f => rfl⟩
  simp only [run, hm]
  rw [if_neg hlen]
  by_cases h64 : existsAt env (ffExe64 (removeFileSpec path)) = true
  · rw [if_pos h64]
    simp only [launchPhase]
    split <;> rfl
  · rcases hfound with h | h32
    · exact absurd h h64
    · rw [if_neg h64, if_pos h32]
      simp only [launchPhase]
      split <;> rfl

/-- C6 witness: in `envBoth` the trace starts with the two directory
creations, and forcing every `CreateDirectoryW` to fail changes nothing. -/
theorem dir_creation_parent_first_unchecked_witness :
    (run envBoth).events.take 2 =
      [Event.createDirectory (dataDir (removeFileSpec "C:\\MyFox\\MyFox.exe")),
       Event.createDirectory (profileDir (removeFileSpec "C:\\MyFox\\MyFox.exe"))] ∧
    run { envBoth with createDirResult := fun _ => false } = run envBoth :=
  ⟨(dir_creation_parent_first_unchecked envBoth "C:\\MyFox\\MyFox.exe" rfl
      (by decide) (Or.inl (by decide))).1,
   (dir_creation_parent_first_unchecked envBoth "C:\\MyFox\\MyFox.exe" rfl
      (by decide) (Or.inl (by decide))).2 (fun _ => false)⟩

/-- C8: a second run against the same install differs only in the
`CreateDirectoryW` outcomes (the directories now exist) while the candidate
attributes are unchanged; such a run is identical to the first, in particular
it produces the same command line and cannot fail on directory creation. -/
theorem second_run_idempotent (env : Env) (path : String)
    (f : String → Bool) (g : String → Option FileAttr)
    (hm : env.modulePath = some path)
    (hg64 : g (ffExe64 (removeFileSpec path))
      = env.getFileAttributes (ffExe64 (removeFileSpec path)))
    (hg32 : g (ffExe32 (removeFileSpec path))
      = env.getFileAttributes (ffExe32 (removeFileSpec path))) :
    run { env with createDirResult := f, getFileAttributes := g } = run env ∧
    cmdlineOf (run { env with createDirResult := f, getFileAttributes := g })
      = cmdlineOf (run env) := by
  have hmain : run { env with createDirResult := f, getFileAttributes := g } = run env := by
    simp only [run, hm, existsAt]
    by_cases hlen : path.length = 0 ∨ MAX_PATH ≤ path.length
    · rw [if_pos hlen, if_pos hlen]
    · rw [if_neg hlen, if_neg hlen, hg64, hg32]
      rfl
  exact ⟨hmain, by rw [hmain]⟩

/-- C8 witness: re-running `envBoth` with all directory creations now
reporting failure (directories already exist) yields the identical result. -/
theorem second_run_idempotent_witness :
    run { envBoth with createDirResult := fun _ => false,
                       getFileAttributes := envBoth.getFileAttributes } = run envBoth ∧
    cmdlineOf (run { envBoth with createDirResult := fun _ => false,
                                  getFileAttributes := envBoth.getFileAttributes })
      = cmdlineOf (run envBoth) :=
  second_run_idempotent envBoth "C:\\MyFox\\MyFox.exe" (fun _ => false)
    envBoth.getFileAttributes rfl rfl rfl

/-- C10: for every module path accepted by the startup guard
(`length < MAX_PATH`), each derived string fits its buffer with the
terminating NUL: `base` in `WCHAR[MAX_PATH]`, the candidate paths, data,
profile and working directories in `WCHAR[MAX_PATH + 64]`, and the command
line in `WCHAR[MAX_PATH * 3]`. -/
theorem derived_strings_fit_buffers (path : String)
    (h : path.length < MAX_PATH) :
    ((removeFileSpec path).length + 1 ≤ MAX_PATH) ∧
    ((ffExe64 (removeFileSpec path)).length + 1 ≤ MAX_PATH + 64) ∧
    ((ffExe32 (removeFileSpec path)).length + 1 ≤ MAX_PATH + 64) ∧
    ((dataDir (removeFileSpec path)).length + 1 ≤ MAX_PATH + 64) ∧
    ((profileDir (removeFileSpec path)).length + 1 ≤ MAX_PATH + 64) ∧
    ((removeFileSpec (ffExe64 (removeFileSpec path))).length + 1 ≤ MAX_PATH + 64) ∧
    ((removeFileSpec (ffExe32 (removeFileSpec path))).length + 1 ≤ MAX_PATH + 64) ∧
    ((buildCmdline (ffExe64 (removeFileSpec path))
        (profileDir (removeFileSpec path))).length + 1 ≤ MAX_PATH * 3) ∧
    ((buildCmdline (ffExe32 (removeFileSpec path))
        (profileDir (removeFileSpec path))).length + 1 ≤ MAX_PATH * 3) := by
  have l64 : ("\\App\\Firefox64\\firefox.exe" : String).length = 26 := by decide
  have l32 : ("\\App\\Firefox\\firefox.exe" : String).length = 24 := by decide
  have ld : ("\\Data" : String).length = 5 := by decide
  have lp : ("\\Data\\profile" : String).length = 13 := by decide
  have lq : ("\"" : String).length = 1 := by decide
  have lpr : ("\" -profile \"" : String).length = 12 := by decide
  have lnr : ("\" -no-remote" : String).length = 12 := by decide
  have hbase := removeFileSpec_length_le path
  have e64 : (ffExe64 (removeFileSpec path)).length
      = (removeFileSpec path).length + 26 := by
    rw [ffExe64, String.length_append, l64]
  have e32 : (ffExe32 (removeFileSpec path)).length
      = (removeFileSpec path).length + 24 := by
    rw [ffExe32, String.length_append, l32]
  have ed : (dataDir (removeFileSpec path)).length
      = (removeFileSpec path).length + 5 := by
    rw [dataDir, String.length_append, ld]
  have ep : (profileDir (removeFileSpec path)).length
      = (removeFileSpec path).length + 13 := by
    rw [profileDir, String.length_append, lp]
  have er64 := removeFileSpec_length_le (ffExe64 (removeFileSpec path))
  have er32 := removeFileSpec_length_le (ffExe32 (removeFileSpec path))
  have ec64 : (buildCmdline (ffExe64 (removeFileSpec path))
      (profileDir (removeFileSpec path))).length
      = (ffExe64 (removeFileSpec path)).length
        + (profileDir (removeFileSpec path)).length + 25 := by
    rw [buildCmdline, String.length_append, String.length_append,
      String.length_append, String.length_append, lq, lpr, lnr]
    omega
  have ec32 : (buildCmdline (ffExe32 (removeFileSpec path))
      (profileDir (removeFileSpec path))).length
      = (ffExe32 (removeFileSpec path)).length
        + (profileDir (removeFileSpec path)).length + 25 := by
    rw [buildCmdline, String.length_append, String.length_append,
      String.length_append, String.length_append, lq, lpr, lnr]
    omega
  simp only [MAX_PATH] at h ⊢
  refine ⟨by omega, by omega, by omega, by omega, by omega, by omega, by omega,
    by omega, by omega⟩

/-- C10 witness at the concrete module path `C:\MyFox\MyFox.exe`. -/
theorem derived_strings_fit_buffers_witness :
    ((removeFileSpec "C:\\MyFox\\MyFox.exe").length + 1 ≤ MAX_PATH) ∧
    ((ffExe64 (removeFileSpec "C:\\MyFox\\MyFox.exe")).length + 1 ≤ MAX_PATH + 64) ∧
    ((ffExe32 (removeFileSpec "C:\\MyFox\\MyFox.exe")).length + 1 ≤ MAX_PATH + 64) ∧
    ((dataDir (removeFileSpec "C:\\MyFox\\MyFox.exe")).length + 1 ≤ MAX_PATH + 64) ∧
    ((profileDir (removeFileSpec "C:\\MyFox\\MyFox.exe")).length + 1 ≤ MAX_PATH + 64) ∧
    ((removeFileSpec (ffExe64 (removeFileSpec "C:\\MyFox\\MyFox.exe"))).length + 1
      ≤ MAX_PATH + 64) ∧
    ((removeFileSpec (ffExe32 (removeFileSpec "C:\\MyFox\\MyFox.exe"))).length + 1
      ≤ MAX_PATH + 64) ∧
    ((buildCmdline (ffExe64 (removeFileSpec "C:\\MyFox\\MyFox.exe"))
        (profileDir (removeFileSpec "C:\\MyFox\\MyFox.exe"))).length + 1 ≤ MAX_PATH * 3) ∧
    ((buildCmdline (ffExe32 (removeFileSpec "C:\\MyFox\\MyFox.exe"))
        (profileDir (removeFileSpec "C:\\MyFox\\MyFox.exe"))).length + 1 ≤ MAX_PATH * 3) :=
  derived_strings_fit_buffers "C:\\MyFox\\MyFox.exe" (by decide)

end PortableLauncher
